import Mathlib

/-!
Verification of the release-reconciler, glyph-lookup and deck-builder logic of
the toki-pona-anki repository, shallowly embedded from the Python sources
(cleanup_releases.py, cleanup_releases_api.py, cleanup_releases_direct.py,
cleanup_releases_final.py, generate_images.py, generate_anki_deck.py,
test_unicode_sitelen.py).
-/

/-- Release record as listed by the gh CLI variant (cleanup_releases.py):
`gh release list --json name,tagName` yields objects with fields
`name` and `tagName`. -/
structure ReleaseCLI where
  name : String
  tagName : String
deriving DecidableEq, Repr

/-- Release record as returned by the GitHub REST API (cleanup_releases_api.py,
cleanup_releases_direct.py, cleanup_releases_final.py): fields `name`,
`tag_name` and a numeric `id`. -/
structure ReleaseAPI where
  name : String
  tag_name : String
  id : Nat
deriving DecidableEq, Repr

/-- The keep predicate of cleanup_releases.py line 75:
`release[name] == KEEP_RELEASE or release[tagName] == KEEP_TAG`. -/
def keepMatchCLI (r : ReleaseCLI) (keepName keepTag : String) : Bool :=
  (r.name == keepName) || (r.tagName == keepTag)

/-- The keep predicate of the API variants (cleanup_releases_api.py line 139,
cleanup_releases_direct.py line 123, cleanup_releases_final.py line 87):
`release[name] == KEEP_RELEASE or release[tag_name] == KEEP_TAG`. -/
def keepMatchAPI (r : ReleaseAPI) (keepName keepTag : String) : Bool :=
  (r.name == keepName) || (r.tag_name == keepTag)

/-- Loop body of the partition pass of cleanup_releases.py lines 71-80: scan the
fetched releases, set the found flag on a keep match, and append every other
record to `releases_to_delete` (preserving order). -/
def cliPartitionLoop (keepName keepTag : String) :
    List ReleaseCLI → List ReleaseCLI → Bool → List ReleaseCLI × Bool
  | [], acc, found => (acc, found)
  | r :: rest, acc, found =>
    if keepMatchCLI r keepName keepTag then
      cliPartitionLoop keepName keepTag rest acc true
    else
      cliPartitionLoop keepName keepTag rest (acc ++ [r]) found

/-- Partition pass of cleanup_releases.py lines 71-80, started from the empty
`releases_to_delete` list and `keep_release_found = False`. -/
def cliPartition (releases : List ReleaseCLI) (keepName keepTag : String) :
    List ReleaseCLI × Bool :=
  cliPartitionLoop keepName keepTag releases [] false

/-- Loop body of the partition pass of cleanup_releases_api.py lines 135-144
(textually identical in cleanup_releases_direct.py lines 119-128 and
cleanup_releases_final.py lines 83-92, over the same record fields). -/
def apiPartitionLoop (keepName keepTag : String) :
    List ReleaseAPI → List ReleaseAPI → Bool → List ReleaseAPI × Bool
  | [], acc, found => (acc, found)
  | r :: rest, acc, found =>
    if keepMatchAPI r keepName keepTag then
      apiPartitionLoop keepName keepTag rest acc true
    else
      apiPartitionLoop keepName keepTag rest (acc ++ [r]) found

/-- Partition pass of cleanup_releases_api.py lines 135-144. -/
def apiPartition (releases : List ReleaseAPI) (keepName keepTag : String) :
    List ReleaseAPI × Bool :=
  apiPartitionLoop keepName keepTag releases [] false

/-- Partition pass of cleanup_releases_direct.py lines 119-128, a textual copy
of the API variant loop over the same record fields. -/
def directPartition (releases : List ReleaseAPI) (keepName keepTag : String) :
    List ReleaseAPI × Bool :=
  apiPartitionLoop keepName keepTag releases [] false

/-- Result of the deletion phase: aggregated counters and the list of
candidates on which a deletion call was attempted, in attempt order. -/
structure DelResult (R : Type) where
  successCount : Nat
  failedCount : Nat
  attempted : List R
deriving DecidableEq, Repr

/-- Deletion loop shared (textually identical) by all four reconciler variants
(cleanup_releases.py lines 105-114, cleanup_releases_api.py lines 165-176,
cleanup_releases_direct.py lines 147-157, cleanup_releases_final.py
lines 117-128): for each candidate, attempt the remote deletion (its outcome
modelled by the oracle `ok`) and bump the matching counter; no branch ever
leaves the loop early. -/
def deletionLoop {R : Type} (ok : R → Bool) :
    List R → Nat → Nat → List R → DelResult R
  | [], s, f, att => ⟨s, f, att⟩
  | r :: rest, s, f, att =>
    if ok r then deletionLoop ok rest (s + 1) f (att ++ [r])
    else deletionLoop ok rest s (f + 1) (att ++ [r])

/-- Deletion phase started from zeroed counters. -/
def runDeletions {R : Type} (candidates : List R) (ok : R → Bool) : DelResult R :=
  deletionLoop ok candidates 0 0 []

/-- The fixed release kept by every variant (KEEP_RELEASE constant). -/
def KEEP_RELEASE : String := "Toki Pona Anki Deck 2025.05.29-05.13.41"

/-- The fixed tag kept by every variant (KEEP_TAG constant). -/
def KEEP_TAG : String := "v2025.05.29-05.13.41"

/-- The ordered environment-variable names probed by get_github_token
(cleanup_releases_api.py lines 16-24). -/
def token_names : List String :=
  ["GITHUB_TOKEN", "RELEASE_GITHUB_TOKEN", "GH_TOKEN", "COPILOT_GITHUB_TOKEN",
   "ACTIONS_TOKEN", "INPUT_GITHUB_TOKEN", "INPUT_TOKEN"]

/-- The well-known token file paths probed by get_github_token
(cleanup_releases_api.py lines 41-45). -/
def temp_files : List String :=
  ["/home/runner/work/_temp/github_token", "/tmp/github_token", ".github_token"]

/-- First environment variable in the given order whose value is set and
non-empty (Python truthiness of a string), as in the loop of
cleanup_releases_api.py lines 26-30. -/
def firstEnvToken (env : String → Option String) : List String → Option String
  | [] => none
  | n :: rest =>
    match env n with
    | some t => if t = "" then firstEnvToken env rest else some t
    | none => firstEnvToken env rest

/-- First file on the given path list that exists, is readable and whose
stripped contents are non-empty, as in the loop of cleanup_releases_api.py
lines 47-56 (a read failure, modelled by `none`, continues the loop). -/
def firstFileToken (fileContents : String → Option String) : List String → Option String
  | [] => none
  | p :: rest =>
    match fileContents p with
    | some s => if s.trim = "" then firstFileToken fileContents rest else some s.trim
    | none => firstFileToken fileContents rest

/-- get_github_token of cleanup_releases_api.py lines 14-59: probe the named
environment variables in order, then (when GITHUB_ACTIONS is set) re-probe
GITHUB_TOKEN, then probe the well-known file paths; `none` when nothing is
found. -/
def get_github_token (env : String → Option String)
    (fileContents : String → Option String) : Option String :=
  match firstEnvToken env token_names with
  | some t => some t
  | none =>
    match
      (match env "GITHUB_ACTIONS" with
       | some a =>
         if a = "" then none
         else
           match env "GITHUB_TOKEN" with
           | some t => if t = "" then none else some t
           | none => none
       | none => none) with
    | some t => some t
    | none => firstFileToken fileContents temp_files

/-- Credential resolution as the spec words it: check the fixed ordered list of
named environment variables first, then fall back to the fixed list of
well-known file paths, and return the first non-empty value found. Stated for
comparison with get_github_token. -/
def specCredentialResolution (env : String → Option String)
    (fileContents : String → Option String) : Option String :=
  match firstEnvToken env token_names with
  | some t => some t
  | none => firstFileToken fileContents temp_files

/-- Token resolution of cleanup_releases_final.py lines 38-40:
`os.environ.get(GITHUB_TOKEN) or os.environ.get(RELEASE_GITHUB_TOKEN) or
os.environ.get(GH_TOKEN)`, kept only when truthy. -/
def finalTokenResolve (env : String → Option String) : Option String :=
  firstEnvToken env ["GITHUB_TOKEN", "RELEASE_GITHUB_TOKEN", "GH_TOKEN"]

/-- Python str.lower as used on the interactive answers of
cleanup_releases.py lines 85-86 and 100-101, embedded as a per-character
lowercase map. -/
def pyLower (s : String) : String := String.mk (s.data.map Char.toLower)

/-- Observable outcome of one reconciler run (the part after the remote fetch
is modelled by passing the fetched record list as an argument): whether a
remote listing call was reached, whether the missing-keep warning was printed,
the headline message of an early return, the process exit status, and the
deletion-phase results. -/
structure RunOutcome (R : Type) where
  fetched : Bool
  warnedKeepMissing : Bool
  abortMessage : Option String
  exitCode : Nat
  attempted : List R
  successCount : Nat
  failedCount : Nat
deriving DecidableEq, Repr

/-- main of cleanup_releases.py lines 40-132, after the gh auth check and the
fetch: abort on an empty fetched list; partition; on a missing keep target
print a warning and prompt, aborting with exit 1 unless the answer lowercases
to y; exit 0 when there is nothing to delete; prompt again before deleting,
aborting with exit 0 unless the answer lowercases to y; then run the deletion
loop and end (implicit exit status 0). `contResp` and `confirmResp` are the
two interactive answers and `ok` the per-candidate outcome of
`gh release delete`. -/
def cliMain (releases : List ReleaseCLI) (contResp confirmResp : String)
    (ok : ReleaseCLI → Bool) : RunOutcome ReleaseCLI :=
  if releases.isEmpty then
    ⟨true, false, some "No releases found or error getting releases.", 1, [], 0, 0⟩
  else
    let p := cliPartition releases KEEP_RELEASE KEEP_TAG
    if !p.2 && (pyLower contResp != "y") then
      ⟨true, true, some "Aborted.", 1, [], 0, 0⟩
    else if p.1.isEmpty then
      ⟨true, !p.2, some "No releases to delete.", 0, [], 0, 0⟩
    else if pyLower confirmResp != "y" then
      ⟨true, !p.2, some "Aborted.", 0, [], 0, 0⟩
    else
      let d := runDeletions p.1 ok
      ⟨true, !p.2, none, 0, d.attempted, d.successCount, d.failedCount⟩

/-- main of cleanup_releases_api.py lines 98-195: abort with exit 1 before any
remote call when no token resolves; abort on an empty fetched list; partition;
print the missing-keep warning without prompting and proceed; exit 0 when
there is nothing to delete; otherwise run the deletion loop automatically and
end (implicit exit status 0). -/
def apiMain (env : String → Option String) (fileContents : String → Option String)
    (releases : List ReleaseAPI) (ok : ReleaseAPI → Bool) : RunOutcome ReleaseAPI :=
  match get_github_token env fileContents with
  | none => ⟨false, false, some "Error: No GitHub token found.", 1, [], 0, 0⟩
  | some _ =>
    if releases.isEmpty then
      ⟨true, false, some "No releases found or error getting releases.", 1, [], 0, 0⟩
    else
      let p := apiPartition releases KEEP_RELEASE KEEP_TAG
      if p.1.isEmpty then
        ⟨true, !p.2, some "No releases to delete.", 0, [], 0, 0⟩
      else
        let d := runDeletions p.1 ok
        ⟨true, !p.2, none, 0, d.attempted, d.successCount, d.failedCount⟩

/-- main of cleanup_releases_direct.py lines 82-173: the fetch is attempted
without requiring a token (authentication is optional in the request headers);
an empty fetched list aborts with return 1 and a diagnostic headline; then
partition, warn-and-proceed on a missing keep target, return 0 when there is
nothing to delete, and otherwise delete and return 0 exactly when no deletion
failed. -/
def directMain (releases : List ReleaseAPI) (ok : ReleaseAPI → Bool) :
    RunOutcome ReleaseAPI :=
  if releases.isEmpty then
    ⟨true, false, some "Failed to get releases - this could be due to:", 1, [], 0, 0⟩
  else
    let p := directPartition releases KEEP_RELEASE KEEP_TAG
    if p.1.isEmpty then
      ⟨true, !p.2, some "No releases to delete.", 0, [], 0, 0⟩
    else
      let d := runDeletions p.1 ok
      ⟨true, !p.2, none, if d.failedCount = 0 then 0 else 1,
        d.attempted, d.successCount, d.failedCount⟩

/-- main of cleanup_releases_final.py lines 24-148: return 1 before any remote
call when no token resolves from the three environment variables; return 1
when the gh auth check fails; return 1 when the fetch fails or its JSON does
not parse (both modelled by `fetchResult = none`); there is NO empty-list
check, so an empty parsed list proceeds; partition, warn-and-proceed on a
missing keep target, return 0 when there is nothing to delete, and otherwise
delete and return 0 exactly when no deletion failed. -/
def finalMain (env : String → Option String) (authOk : Bool)
    (fetchResult : Option (List ReleaseAPI)) (ok : ReleaseAPI → Bool) :
    RunOutcome ReleaseAPI :=
  match finalTokenResolve env with
  | none => ⟨false, false, some "No GitHub token found in environment variables:", 1, [], 0, 0⟩
  | some _ =>
    if !authOk then
      ⟨false, false, some "GitHub CLI authentication failed", 1, [], 0, 0⟩
    else
      match fetchResult with
      | none => ⟨true, false, some "Failed to fetch releases", 1, [], 0, 0⟩
      | some releases =>
        let p := apiPartition releases KEEP_RELEASE KEEP_TAG
        if p.1.isEmpty then
          ⟨true, !p.2, some "No releases to delete - cleanup already complete!", 0, [], 0, 0⟩
        else
          let d := runDeletions p.1 ok
          ⟨true, !p.2, none, if d.failedCount = 0 then 0 else 1,
            d.attempted, d.successCount, d.failedCount⟩

/-- Environment with exactly one set variable, GITHUB_TOKEN. -/
def envWithToken : String → Option String :=
  fun n => if n = "GITHUB_TOKEN" then some "sometoken" else none

/-- Environment with no set variable. -/
def envEmpty : String → Option String := fun _ => none

/-- Which rendering path a glyph request took: the drawing recipe of the
vector table, or the textual fallback (the word rendered inside a decorative
border). The fallback is an ordinary result, not an error: both dispatch
functions below are total. -/
inductive RenderPath where
  | recipe : RenderPath
  | fallbackText : RenderPath
deriving DecidableEq, Repr

/-- The key set of the sitelen_designs recipe dictionary of
generate_images.py (generate_proper_geometric_sitelen_pona, lines 117-424),
in source order. -/
def sitelen_designs_words : List String :=
  ["a", "e", "en", "la", "li", "o", "pi", "mi", "sina", "ona", "ni", "ijo",
   "nimi", "pona", "ike", "suli", "lili", "mute", "wan", "tu", "ale",
   "ala", "jan", "meli", "mije", "mama", "suno", "mun", "telo", "ma",
   "kasi", "kiwen", "kon", "soweli", "waso", "kala", "akesi", "pipi",
   "luka", "noka", "uta", "oko", "lukin", "kute", "sijelo", "lawa", "pali",
   "utala", "moku", "toki", "kama", "tawa", "jo", "tomo", "ilo", "lipu",
   "len", "poki", "supa", "kule", "loje", "laso", "jelo", "pimeja", "walo",
   "olin", "pilin", "wile", "tenpo", "sewi", "anpa", "poka", "monsi",
   "sinpin", "sona", "ken", "wawa", "lape"]

/-- The key set of the geometric_shapes recipe dictionary of
generate_anki_deck.py (generate_geometric_sitelen_pona, lines 176-311), in
source order. -/
def geometric_shapes_words : List String :=
  ["a", "mi", "sina", "ona", "ni", "pona", "ike", "jan", "meli", "mije",
   "moku", "tomo", "suno", "mun", "telo", "sike", "luka", "kili", "kala",
   "waso", "len", "lape", "utala", "ilo", "lipu", "olin", "wile", "ken",
   "seli", "lete", "ma", "sewi", "anpa"]

/-- Dispatch of generate_proper_geometric_sitelen_pona
(generate_images.py lines 425-448): `if word in sitelen_designs` execute the
recipe and return the image, otherwise draw the word text inside a bordered
frame. The recipe lambdas are fixed finite sequences of PIL drawing calls and
raise no exception, so the except-branch of the source is unreachable in this
pure embedding. -/
def generate_proper_geometric_sitelen_pona (word : String) : RenderPath :=
  if sitelen_designs_words.contains word then RenderPath.recipe
  else RenderPath.fallbackText

/-- Dispatch of generate_geometric_sitelen_pona
(generate_anki_deck.py lines 313-336): `if word in geometric_shapes` execute
the recipe, otherwise draw the word text inside a decorative border. -/
def generate_geometric_sitelen_pona (word : String) : RenderPath :=
  if geometric_shapes_words.contains word then RenderPath.recipe
  else RenderPath.fallbackText

/-- A card template of the genanki model: name, question format and answer
format (generate_anki_deck.py lines 36-59, braces of the source written
escaped). -/
structure CardTemplate where
  name : String
  qfmt : String
  afmt : String
deriving DecidableEq, Repr

/-- Field names of TOKI_PONA_MODEL (generate_anki_deck.py lines 28-34). -/
def tokiPonaModelFields : List String :=
  ["Word", "Definition", "Type", "SitelenPona", "SitelenPonaImage"]

/-- The two card templates of TOKI_PONA_MODEL
(generate_anki_deck.py lines 36-59). -/
def tokiPonaModelTemplates : List CardTemplate :=
  [⟨"Sitelen Pona to Word + Definition",
    "<div class=\"sitelen-pona\">\x7b\x7bSitelenPona\x7d\x7d</div><br>\x7b\x7b#SitelenPonaImage\x7d\x7d<div><img src=\"\x7b\x7bSitelenPonaImage\x7d\x7d\" alt=\"\x7b\x7bWord\x7d\x7d\" class=\"sitelen-image\" width=\"180\" height=\"180\"></div>\x7b\x7b/SitelenPonaImage\x7d\x7d\x7b\x7b^SitelenPonaImage\x7d\x7d<div class=\"no-image\">No image available for \x7b\x7bWord\x7d\x7d</div>\x7b\x7b/SitelenPonaImage\x7d\x7d",
    "<div class=\"word\">\x7b\x7bWord\x7d\x7d</div><br><div class=\"type\">\x7b\x7bType\x7d\x7d</div><br><div class=\"definition\">\x7b\x7bDefinition\x7d\x7d</div><br><hr><div class=\"sitelen-pona\">\x7b\x7bSitelenPona\x7d\x7d</div>\x7b\x7b#SitelenPonaImage\x7d\x7d<div><img src=\"\x7b\x7bSitelenPonaImage\x7d\x7d\" alt=\"\x7b\x7bWord\x7d\x7d\" class=\"sitelen-image\" width=\"180\" height=\"180\"></div>\x7b\x7b/SitelenPonaImage\x7d\x7d\x7b\x7b^SitelenPonaImage\x7d\x7d<div class=\"no-image\">No image available for \x7b\x7bWord\x7d\x7d</div>\x7b\x7b/SitelenPonaImage\x7d\x7d"⟩,
   ⟨"Word to Sitelen Pona + Definition",
    "\x7b\x7bWord\x7d\x7d",
    "<div class=\"word\">\x7b\x7bWord\x7d\x7d</div><br><div class=\"type\">\x7b\x7bType\x7d\x7d</div><br><div class=\"definition\">\x7b\x7bDefinition\x7d\x7d</div><br><hr><div class=\"sitelen-pona\">\x7b\x7bSitelenPona\x7d\x7d</div>\x7b\x7b#SitelenPonaImage\x7d\x7d<div><img src=\"\x7b\x7bSitelenPonaImage\x7d\x7d\" alt=\"\x7b\x7bWord\x7d\x7d\" class=\"sitelen-image\" width=\"180\" height=\"180\"></div>\x7b\x7b/SitelenPonaImage\x7d\x7d\x7b\x7b^SitelenPonaImage\x7d\x7d<div class=\"no-image\">No image available for \x7b\x7bWord\x7d\x7d</div>\x7b\x7b/SitelenPonaImage\x7d\x7d"⟩]

/-- One word entry of toki_pona_words.json: definition and part-of-speech
string. -/
structure WordInfo where
  definition : String
  pos : String
deriving DecidableEq, Repr

/-- The note built for one word by create_anki_deck
(generate_anki_deck.py lines 426-446): fields
[word, definition, word_type, word, image_filename], where image_filename is
the mapped image basename when one exists and the empty string otherwise. -/
def noteFields (wordToImage : String → Option String) (word : String)
    (info : WordInfo) : List String :=
  [word, info.definition, info.pos, word,
   (match wordToImage word with
    | some p => p
    | none => "")]

/-- The note list of create_anki_deck: exactly one note per word entry, in
input order. -/
def createAnkiDeckNotes (wordsData : List (String × WordInfo))
    (wordToImage : String → Option String) : List (List String) :=
  wordsData.map (fun e => noteFields wordToImage e.1 e.2)

/-- The number of flashcards written to the package: genanki generates one
card per template for each note of the model, and the script itself reports
`len(words_data) * 2  # Two card types per word`
(generate_anki_deck.py line 479). -/
def deckCardCount (wordsData : List (String × WordInfo))
    (wordToImage : String → Option String) : Nat :=
  (createAnkiDeckNotes wordsData wordToImage).length *
    tokiPonaModelTemplates.length

/-- Correspondence between a CLI-variant record and an API-variant record:
same release name and same tag string (the CLI field tagName and the API field
tag_name carry the same remote datum over different transports). -/
def ReleaseRel (r : ReleaseCLI) (s : ReleaseAPI) : Prop :=
  r.name = s.name ∧ r.tagName = s.tag_name

/-- The compiled word-to-codepoint table SITELEN_PONA_UNICODE of
test_unicode_sitelen.py lines 8-131, with each value transcribed as the exact
character sequence the Python string literal denotes: only the first entry
uses the 8-digit escape \U000F1900; every other entry uses a 4-digit \uF19x
escape followed by a literal trailing character, producing a two-character
string. -/
def SITELEN_PONA_UNICODE : List (String × String) :=
 [  ("a", String.mk [Char.ofNat 0xF1900]),
  ("akesi", String.mk [Char.ofNat 0xF190, Char.ofNat 0x31]),
  ("ala", String.mk [Char.ofNat 0xF190, Char.ofNat 0x32]),
  ("alasa", String.mk [Char.ofNat 0xF190, Char.ofNat 0x33]),
  ("ale", String.mk [Char.ofNat 0xF190, Char.ofNat 0x34]),
  ("ali", String.mk [Char.ofNat 0xF190, Char.ofNat 0x34]),
  ("anpa", String.mk [Char.ofNat 0xF190, Char.ofNat 0x35]),
  ("ante", String.mk [Char.ofNat 0xF190, Char.ofNat 0x36]),
  ("anu", String.mk [Char.ofNat 0xF190, Char.ofNat 0x37]),
  ("awen", String.mk [Char.ofNat 0xF190, Char.ofNat 0x38]),
  ("e", String.mk [Char.ofNat 0xF190, Char.ofNat 0x39]),
  ("en", String.mk [Char.ofNat 0xF190, Char.ofNat 0x41]),
  ("esun", String.mk [Char.ofNat 0xF190, Char.ofNat 0x42]),
  ("ijo", String.mk [Char.ofNat 0xF190, Char.ofNat 0x43]),
  ("ike", String.mk [Char.ofNat 0xF190, Char.ofNat 0x44]),
  ("ilo", String.mk [Char.ofNat 0xF190, Char.ofNat 0x45]),
  ("insa", String.mk [Char.ofNat 0xF190, Char.ofNat 0x46]),
  ("jaki", String.mk [Char.ofNat 0xF191, Char.ofNat 0x30]),
  ("jan", String.mk [Char.ofNat 0xF191, Char.ofNat 0x31]),
  ("jelo", String.mk [Char.ofNat 0xF191, Char.ofNat 0x32]),
  ("jo", String.mk [Char.ofNat 0xF191, Char.ofNat 0x33]),
  ("kala", String.mk [Char.ofNat 0xF191, Char.ofNat 0x34]),
  ("kalama", String.mk [Char.ofNat 0xF191, Char.ofNat 0x35]),
  ("kama", String.mk [Char.ofNat 0xF191, Char.ofNat 0x36]),
  ("kasi", String.mk [Char.ofNat 0xF191, Char.ofNat 0x37]),
  ("ken", String.mk [Char.ofNat 0xF191, Char.ofNat 0x38]),
  ("kepeken", String.mk [Char.ofNat 0xF191, Char.ofNat 0x39]),
  ("kili", String.mk [Char.ofNat 0xF191, Char.ofNat 0x41]),
  ("kiwen", String.mk [Char.ofNat 0xF191, Char.ofNat 0x42]),
  ("ko", String.mk [Char.ofNat 0xF191, Char.ofNat 0x43]),
  ("kon", String.mk [Char.ofNat 0xF191, Char.ofNat 0x44]),
  ("kule", String.mk [Char.ofNat 0xF191, Char.ofNat 0x45]),
  ("kulupu", String.mk [Char.ofNat 0xF191, Char.ofNat 0x46]),
  ("kute", String.mk [Char.ofNat 0xF192, Char.ofNat 0x30]),
  ("la", String.mk [Char.ofNat 0xF192, Char.ofNat 0x31]),
  ("lape", String.mk [Char.ofNat 0xF192, Char.ofNat 0x32]),
  ("laso", String.mk [Char.ofNat 0xF192, Char.ofNat 0x33]),
  ("lawa", String.mk [Char.ofNat 0xF192, Char.ofNat 0x34]),
  ("len", String.mk [Char.ofNat 0xF192, Char.ofNat 0x35]),
  ("lete", String.mk [Char.ofNat 0xF192, Char.ofNat 0x36]),
  ("li", String.mk [Char.ofNat 0xF192, Char.ofNat 0x37]),
  ("lili", String.mk [Char.ofNat 0xF192, Char.ofNat 0x38]),
  ("linja", String.mk [Char.ofNat 0xF192, Char.ofNat 0x39]),
  ("lipu", String.mk [Char.ofNat 0xF192, Char.ofNat 0x41]),
  ("loje", String.mk [Char.ofNat 0xF192, Char.ofNat 0x42]),
  ("lon", String.mk [Char.ofNat 0xF192, Char.ofNat 0x43]),
  ("luka", String.mk [Char.ofNat 0xF192, Char.ofNat 0x44]),
  ("lukin", String.mk [Char.ofNat 0xF192, Char.ofNat 0x45]),
  ("lupa", String.mk [Char.ofNat 0xF192, Char.ofNat 0x46]),
  ("ma", String.mk [Char.ofNat 0xF193, Char.ofNat 0x30]),
  ("mama", String.mk [Char.ofNat 0xF193, Char.ofNat 0x31]),
  ("mani", String.mk [Char.ofNat 0xF193, Char.ofNat 0x32]),
  ("meli", String.mk [Char.ofNat 0xF193, Char.ofNat 0x33]),
  ("mi", String.mk [Char.ofNat 0xF193, Char.ofNat 0x34]),
  ("mije", String.mk [Char.ofNat 0xF193, Char.ofNat 0x35]),
  ("moku", String.mk [Char.ofNat 0xF193, Char.ofNat 0x36]),
  ("moli", String.mk [Char.ofNat 0xF193, Char.ofNat 0x37]),
  ("monsi", String.mk [Char.ofNat 0xF193, Char.ofNat 0x38]),
  ("mu", String.mk [Char.ofNat 0xF193, Char.ofNat 0x39]),
  ("mun", String.mk [Char.ofNat 0xF193, Char.ofNat 0x41]),
  ("musi", String.mk [Char.ofNat 0xF193, Char.ofNat 0x42]),
  ("mute", String.mk [Char.ofNat 0xF193, Char.ofNat 0x43]),
  ("nanpa", String.mk [Char.ofNat 0xF193, Char.ofNat 0x44]),
  ("nasa", String.mk [Char.ofNat 0xF193, Char.ofNat 0x45]),
  ("nasin", String.mk [Char.ofNat 0xF193, Char.ofNat 0x46]),
  ("nena", String.mk [Char.ofNat 0xF194, Char.ofNat 0x30]),
  ("ni", String.mk [Char.ofNat 0xF194, Char.ofNat 0x31]),
  ("nimi", String.mk [Char.ofNat 0xF194, Char.ofNat 0x32]),
  ("noka", String.mk [Char.ofNat 0xF194, Char.ofNat 0x33]),
  ("o", String.mk [Char.ofNat 0xF194, Char.ofNat 0x34]),
  ("oko", String.mk [Char.ofNat 0xF194, Char.ofNat 0x35]),
  ("olin", String.mk [Char.ofNat 0xF194, Char.ofNat 0x36]),
  ("ona", String.mk [Char.ofNat 0xF194, Char.ofNat 0x37]),
  ("open", String.mk [Char.ofNat 0xF194, Char.ofNat 0x38]),
  ("pakala", String.mk [Char.ofNat 0xF194, Char.ofNat 0x39]),
  ("pali", String.mk [Char.ofNat 0xF194, Char.ofNat 0x41]),
  ("palisa", String.mk [Char.ofNat 0xF194, Char.ofNat 0x42]),
  ("pan", String.mk [Char.ofNat 0xF194, Char.ofNat 0x43]),
  ("pana", String.mk [Char.ofNat 0xF194, Char.ofNat 0x44]),
  ("pi", String.mk [Char.ofNat 0xF194, Char.ofNat 0x45]),
  ("pilin", String.mk [Char.ofNat 0xF194, Char.ofNat 0x46]),
  ("pimeja", String.mk [Char.ofNat 0xF195, Char.ofNat 0x30]),
  ("pini", String.mk [Char.ofNat 0xF195, Char.ofNat 0x31]),
  ("pipi", String.mk [Char.ofNat 0xF195, Char.ofNat 0x32]),
  ("poka", String.mk [Char.ofNat 0xF195, Char.ofNat 0x33]),
  ("poki", String.mk [Char.ofNat 0xF195, Char.ofNat 0x34]),
  ("pona", String.mk [Char.ofNat 0xF195, Char.ofNat 0x35]),
  ("pu", String.mk [Char.ofNat 0xF195, Char.ofNat 0x36]),
  ("sama", String.mk [Char.ofNat 0xF195, Char.ofNat 0x37]),
  ("seli", String.mk [Char.ofNat 0xF195, Char.ofNat 0x38]),
  ("selo", String.mk [Char.ofNat 0xF195, Char.ofNat 0x39]),
  ("seme", String.mk [Char.ofNat 0xF195, Char.ofNat 0x41]),
  ("sewi", String.mk [Char.ofNat 0xF195, Char.ofNat 0x42]),
  ("sijelo", String.mk [Char.ofNat 0xF195, Char.ofNat 0x43]),
  ("sike", String.mk [Char.ofNat 0xF195, Char.ofNat 0x44]),
  ("sin", String.mk [Char.ofNat 0xF195, Char.ofNat 0x45]),
  ("sina", String.mk [Char.ofNat 0xF195, Char.ofNat 0x46]),
  ("sinpin", String.mk [Char.ofNat 0xF196, Char.ofNat 0x30]),
  ("sitelen", String.mk [Char.ofNat 0xF196, Char.ofNat 0x31]),
  ("sona", String.mk [Char.ofNat 0xF196, Char.ofNat 0x32]),
  ("soweli", String.mk [Char.ofNat 0xF196, Char.ofNat 0x33]),
  ("suli", String.mk [Char.ofNat 0xF196, Char.ofNat 0x34]),
  ("suno", String.mk [Char.ofNat 0xF196, Char.ofNat 0x35]),
  ("supa", String.mk [Char.ofNat 0xF196, Char.ofNat 0x36]),
  ("suwi", String.mk [Char.ofNat 0xF196, Char.ofNat 0x37]),
  ("tan", String.mk [Char.ofNat 0xF196, Char.ofNat 0x38]),
  ("taso", String.mk [Char.ofNat 0xF196, Char.ofNat 0x39]),
  ("tawa", String.mk [Char.ofNat 0xF196, Char.ofNat 0x41]),
  ("telo", String.mk [Char.ofNat 0xF196, Char.ofNat 0x42]),
  ("tenpo", String.mk [Char.ofNat 0xF196, Char.ofNat 0x43]),
  ("toki", String.mk [Char.ofNat 0xF196, Char.ofNat 0x44]),
  ("tomo", String.mk [Char.ofNat 0xF196, Char.ofNat 0x45]),
  ("tu", String.mk [Char.ofNat 0xF196, Char.ofNat 0x46]),
  ("unpa", String.mk [Char.ofNat 0xF197, Char.ofNat 0x30]),
  ("uta", String.mk [Char.ofNat 0xF197, Char.ofNat 0x31]),
  ("utala", String.mk [Char.ofNat 0xF197, Char.ofNat 0x32]),
  ("walo", String.mk [Char.ofNat 0xF197, Char.ofNat 0x33]),
  ("wan", String.mk [Char.ofNat 0xF197, Char.ofNat 0x34]),
  ("waso", String.mk [Char.ofNat 0xF197, Char.ofNat 0x35]),
  ("wawa", String.mk [Char.ofNat 0xF197, Char.ofNat 0x36]),
  ("weka", String.mk [Char.ofNat 0xF197, Char.ofNat 0x37]),
  ("wile", String.mk [Char.ofNat 0xF197, Char.ofNat 0x38])]

/-- Dictionary lookup in SITELEN_PONA_UNICODE. -/
def sitelenLookup (word : String) : Option String :=
  (SITELEN_PONA_UNICODE.find? (fun e => e.1 == word)).map Prod.snd

/-- Generalised characterisation of the CLI partition loop. -/
theorem cliPartitionLoop_eq (keepName keepTag : String) :
    ∀ (rs acc : List ReleaseCLI) (found : Bool),
      cliPartitionLoop keepName keepTag rs acc found =
        (acc ++ rs.filter (fun r => !(keepMatchCLI r keepName keepTag)),
         found || rs.any (fun r => keepMatchCLI r keepName keepTag)) := by
  intro rs
  induction rs with
  | nil => intro acc found; simp [cliPartitionLoop]
  | cons r rest ih =>
    intro acc found
    by_cases h : keepMatchCLI r keepName keepTag = true
    · simp [cliPartitionLoop, h, ih]
    · simp only [Bool.not_eq_true] at h
      simp [cliPartitionLoop, h, ih]

/-- Generalised characterisation of the API partition loop. -/
theorem apiPartitionLoop_eq (keepName keepTag : String) :
    ∀ (rs acc : List ReleaseAPI) (found : Bool),
      apiPartitionLoop keepName keepTag rs acc found =
        (acc ++ rs.filter (fun r => !(keepMatchAPI r keepName keepTag)),
         found || rs.any (fun r => keepMatchAPI r keepName keepTag)) := by
  intro rs
  induction rs with
  | nil => intro acc found; simp [apiPartitionLoop]
  | cons r rest ih =>
    intro acc found
    by_cases h : keepMatchAPI r keepName keepTag = true
    · simp [apiPartitionLoop, h, ih]
    · simp only [Bool.not_eq_true] at h
      simp [apiPartitionLoop, h, ih]

theorem cliPartition_eq (rs : List ReleaseCLI) (keepName keepTag : String) :
    cliPartition rs keepName keepTag =
      (rs.filter (fun r => !(keepMatchCLI r keepName keepTag)),
       rs.any (fun r => keepMatchCLI r keepName keepTag)) := by
  simp [cliPartition, cliPartitionLoop_eq]

theorem apiPartition_eq (rs : List ReleaseAPI) (keepName keepTag : String) :
    apiPartition rs keepName keepTag =
      (rs.filter (fun r => !(keepMatchAPI r keepName keepTag)),
       rs.any (fun r => keepMatchAPI r keepName keepTag)) := by
  simp [apiPartition, apiPartitionLoop_eq]

/-- The direct-variant partition coincides with the API partition. -/
theorem directPartition_eq (rs : List ReleaseAPI) (keepName keepTag : String) :
    directPartition rs keepName keepTag = apiPartition rs keepName keepTag := rfl

/-- Generalised characterisation of the deletion loop. -/
theorem deletionLoop_eq {R : Type} (ok : R → Bool) :
    ∀ (cands : List R) (s f : Nat) (att : List R),
      deletionLoop ok cands s f att =
        ⟨s + (cands.filter ok).length,
         f + (cands.filter (fun r => !(ok r))).length,
         att ++ cands⟩ := by
  intro cands
  induction cands with
  | nil => intro s f att; simp [deletionLoop]
  | cons r rest ih =>
    intro s f att
    by_cases h : ok r = true
    · simp [deletionLoop, h, ih, Nat.add_assoc, Nat.add_comm 1]
    · simp only [Bool.not_eq_true] at h
      simp [deletionLoop, h, ih, Nat.add_assoc, Nat.add_comm 1]

theorem runDeletions_eq {R : Type} (candidates : List R) (ok : R → Bool) :
    runDeletions candidates ok =
      ⟨(candidates.filter ok).length,
       (candidates.filter (fun r => !(ok r))).length,
       candidates⟩ := by
  simp [runDeletions, deletionLoop_eq]

/-- When no record matches the keep identity, the CLI partition returns the
whole input as delete candidates with the found flag false. -/
theorem cliPartition_no_match (releases : List ReleaseCLI)
    (hnone : ∀ r ∈ releases, keepMatchCLI r KEEP_RELEASE KEEP_TAG = false) :
    cliPartition releases KEEP_RELEASE KEEP_TAG = (releases, false) := by
  rw [cliPartition_eq]
  simp only [Prod.mk.injEq]
  constructor
  · exact List.filter_eq_self.mpr (fun r hr => by simp [hnone r hr])
  · simp only [List.any_eq_false]
    intro r hr
    simp [hnone r hr]

/-- When no record matches the keep identity, the API partition returns the
whole input as delete candidates with the found flag false. -/
theorem apiPartition_no_match (releases : List ReleaseAPI)
    (hnone : ∀ r ∈ releases, keepMatchAPI r KEEP_RELEASE KEEP_TAG = false) :
    apiPartition releases KEEP_RELEASE KEEP_TAG = (releases, false) := by
  rw [apiPartition_eq]
  simp only [Prod.mk.injEq]
  constructor
  · exact List.filter_eq_self.mpr (fun r hr => by simp [hnone r hr])
  · simp only [List.any_eq_false]
    intro r hr
    simp [hnone r hr]

/-- When every record matches the keep identity and the list is non-empty, the
CLI partition returns no delete candidates and the found flag true. -/
theorem cliPartition_all_match (releases : List ReleaseCLI) (hne : releases ≠ [])
    (hall : ∀ r ∈ releases, keepMatchCLI r KEEP_RELEASE KEEP_TAG = true) :
    cliPartition releases KEEP_RELEASE KEEP_TAG = ([], true) := by
  rw [cliPartition_eq]
  simp only [Prod.mk.injEq]
  constructor
  · simp only [List.filter_eq_nil_iff]
    intro r hr
    simp [hall r hr]
  · match releases, hne with
    | r :: rest, _ =>
      simp only [List.any_cons, Bool.or_eq_true]
      exact Or.inl (hall r (List.mem_cons_self r rest))

/-- When every record matches the keep identity and the list is non-empty, the
API partition returns no delete candidates and the found flag true. -/
theorem apiPartition_all_match (releases : List ReleaseAPI) (hne : releases ≠ [])
    (hall : ∀ r ∈ releases, keepMatchAPI r KEEP_RELEASE KEEP_TAG = true) :
    apiPartition releases KEEP_RELEASE KEEP_TAG = ([], true) := by
  rw [apiPartition_eq]
  simp only [Prod.mk.injEq]
  constructor
  · simp only [List.filter_eq_nil_iff]
    intro r hr
    simp [hall r hr]
  · match releases, hne with
    | r :: rest, _ =>
      simp only [List.any_cons, Bool.or_eq_true]
      exact Or.inl (hall r (List.mem_cons_self r rest))

/-- C1: for every input list of release records and every keep-name and
keep-tag, in both the CLI variant and the API variant the computed
delete-candidate list is exactly the input list minus the keep matches: a
record is a keep match exactly when its name equals the keep-name OR its tag
equals the keep-tag (exact string equality, either alone suffices), the
delete-candidate list is the input filtered to the non-matches (in order), and
membership in the delete candidates is equivalent to membership in the input
together with absence from the keep matches. -/
theorem partition_delete_candidates_complement :
    ∀ (rsC : List ReleaseCLI) (rsA : List ReleaseAPI) (keepName keepTag : String),
      (cliPartition rsC keepName keepTag).1 =
        rsC.filter (fun r => !((r.name == keepName) || (r.tagName == keepTag))) ∧
      (∀ r : ReleaseCLI, r ∈ (cliPartition rsC keepName keepTag).1 ↔
        (r ∈ rsC ∧ r ∉ rsC.filter (fun r => keepMatchCLI r keepName keepTag))) ∧
      (apiPartition rsA keepName keepTag).1 =
        rsA.filter (fun r => !((r.name == keepName) || (r.tag_name == keepTag))) ∧
      (∀ r : ReleaseAPI, r ∈ (apiPartition rsA keepName keepTag).1 ↔
        (r ∈ rsA ∧ r ∉ rsA.filter (fun r => keepMatchAPI r keepName keepTag))) := by
  intro rsC rsA keepName keepTag
  refine ⟨?_, ?_, ?_, ?_⟩
  · simp [cliPartition_eq, keepMatchCLI]
  · intro r
    simp only [cliPartition_eq, List.mem_filter]
    constructor
    · rintro ⟨hmem, hnot⟩
      simp only [Bool.not_eq_true'] at hnot
      exact ⟨hmem, fun hk => by simp [hnot] at hk⟩
    · rintro ⟨hmem, hnot⟩
      refine ⟨hmem, ?_⟩
      by_cases h : keepMatchCLI r keepName keepTag = true
      · exact absurd ⟨hmem, h⟩ hnot
      · simp [h]
  · simp [apiPartition_eq, keepMatchAPI]
  · intro r
    simp only [apiPartition_eq, List.mem_filter]
    constructor
    · rintro ⟨hmem, hnot⟩
      simp only [Bool.not_eq_true'] at hnot
      exact ⟨hmem, fun hk => by simp [hnot] at hk⟩
    · rintro ⟨hmem, hnot⟩
      refine ⟨hmem, ?_⟩
      by_cases h : keepMatchAPI r keepName keepTag = true
      · exact absurd ⟨hmem, h⟩ hnot
      · simp [h]

/-- C2: the deletion phase attempts a deletion call on every delete candidate
regardless of individual failures (the attempted list is exactly the candidate
list, for every possible pattern of per-call outcomes), and the aggregated
counters always satisfy success_count + failed_count = number of candidates. -/
theorem deletion_attempts_independent :
    ∀ {R : Type} (candidates : List R) (ok : R → Bool),
      (runDeletions candidates ok).attempted = candidates ∧
      (runDeletions candidates ok).successCount +
        (runDeletions candidates ok).failedCount = candidates.length := by
  intro R candidates ok
  refine ⟨by simp [runDeletions_eq], ?_⟩
  simp only [runDeletions_eq]
  exact (List.length_eq_length_filter_add (l := candidates) ok).symm

/-- C3 counterexample: in the CLI variant (cleanup_releases.py lines 82-88),
with one release that matches neither the keep-name nor the keep-tag and with
an interactive answer that does not lowercase to y, the run warns but then
aborts with exit status 1 and attempts no deletion: the missing keep target IS
treated as fatal there and the run blocks on a further condition, contrary to
the claim. -/
theorem cli_missing_keep_blocks :
    (cliMain [⟨"Toki Pona Anki Deck 2025.05.28-14.22.15", "v2025.05.28-14.22.15"⟩]
        "n" "y" (fun _ => true)).warnedKeepMissing = true ∧
    (cliMain [⟨"Toki Pona Anki Deck 2025.05.28-14.22.15", "v2025.05.28-14.22.15"⟩]
        "n" "y" (fun _ => true)).exitCode = 1 ∧
    (cliMain [⟨"Toki Pona Anki Deck 2025.05.28-14.22.15", "v2025.05.28-14.22.15"⟩]
        "n" "y" (fun _ => true)).attempted = [] ∧
    (cliMain [⟨"Toki Pona Anki Deck 2025.05.28-14.22.15", "v2025.05.28-14.22.15"⟩]
        "n" "y" (fun _ => true)).abortMessage = some "Aborted." := by
  decide

/-- C3 (amended): when zero records match the keep-name or keep-tag, the API,
direct and final variants surface the warning and proceed with the run
(computing the candidate set, which is the whole input, and attempting every
deletion); the CLI variant also surfaces the warning but then prompts
interactively, aborting with exit status 1 unless the answer lowercases to y,
and proceeding to attempt every deletion when both its prompts are answered
y. -/
theorem missing_keep_warn_policy
    (releasesA : List ReleaseAPI) (releasesC : List ReleaseCLI)
    (env fileContents : String → Option String)
    (okA : ReleaseAPI → Bool) (okC : ReleaseCLI → Bool)
    (contResp confirmResp : String)
    (hneA : releasesA ≠ [])
    (hnoneA : ∀ r ∈ releasesA, keepMatchAPI r KEEP_RELEASE KEEP_TAG = false)
    (hneC : releasesC ≠ [])
    (hnoneC : ∀ r ∈ releasesC, keepMatchCLI r KEEP_RELEASE KEEP_TAG = false)
    (htok : (get_github_token env fileContents).isSome = true)
    (htokF : (finalTokenResolve env).isSome = true) :
    ((apiMain env fileContents releasesA okA).warnedKeepMissing = true ∧
     (apiMain env fileContents releasesA okA).attempted = releasesA ∧
     (apiMain env fileContents releasesA okA).exitCode = 0) ∧
    ((directMain releasesA okA).warnedKeepMissing = true ∧
     (directMain releasesA okA).attempted = releasesA) ∧
    ((finalMain env true (some releasesA) okA).warnedKeepMissing = true ∧
     (finalMain env true (some releasesA) okA).attempted = releasesA) ∧
    ((cliMain releasesC contResp confirmResp okC).warnedKeepMissing = true ∧
     (pyLower contResp ≠ "y" →
       (cliMain releasesC contResp confirmResp okC).exitCode = 1 ∧
       (cliMain releasesC contResp confirmResp okC).attempted = []) ∧
     (pyLower contResp = "y" → pyLower confirmResp = "y" →
       (cliMain releasesC contResp confirmResp okC).attempted = releasesC)) := by
  obtain ⟨t, ht⟩ := Option.isSome_iff_exists.mp htok
  obtain ⟨tf, htf⟩ := Option.isSome_iff_exists.mp htokF
  have hA : releasesA.isEmpty = false := by
    cases releasesA with
    | nil => exact absurd rfl hneA
    | cons r rest => rfl
  have hC : releasesC.isEmpty = false := by
    cases releasesC with
    | nil => exact absurd rfl hneC
    | cons r rest => rfl
  have hpA := apiPartition_no_match releasesA hnoneA
  have hpC := cliPartition_no_match releasesC hnoneC
  refine ⟨?_, ?_, ?_, ?_⟩
  · simp [apiMain, ht, hA, hpA, runDeletions_eq, hneA]
  · simp [directMain, directPartition_eq, hA, hpA, runDeletions_eq, hneA]
  · simp [finalMain, htf, hpA, runDeletions_eq, hneA]
  · by_cases hcont : pyLower contResp = "y"
    · by_cases hconf : pyLower confirmResp = "y"
      · refine ⟨?_, ?_, ?_⟩ <;>
          simp [cliMain, hC, hpC, hcont, hconf, runDeletions_eq, hneC]
      · refine ⟨?_, ?_, ?_⟩ <;>
          simp [cliMain, hC, hpC, hcont, hconf, runDeletions_eq, hneC]
    · refine ⟨?_, ?_, ?_⟩ <;>
        simp [cliMain, hC, hpC, hcont, runDeletions_eq, hneC]

/-- C3 (amended) witness at concrete inputs. -/
theorem missing_keep_warn_policy_witness :
    ((apiMain envWithToken (fun _ => none)
        [⟨"Other Release", "v0.0.1", 7⟩] (fun _ => true)).warnedKeepMissing = true ∧
     (apiMain envWithToken (fun _ => none)
        [⟨"Other Release", "v0.0.1", 7⟩] (fun _ => true)).attempted =
       [⟨"Other Release", "v0.0.1", 7⟩] ∧
     (apiMain envWithToken (fun _ => none)
        [⟨"Other Release", "v0.0.1", 7⟩] (fun _ => true)).exitCode = 0) ∧
    ((directMain [⟨"Other Release", "v0.0.1", 7⟩] (fun _ => true)).warnedKeepMissing = true ∧
     (directMain [⟨"Other Release", "v0.0.1", 7⟩] (fun _ => true)).attempted =
       [⟨"Other Release", "v0.0.1", 7⟩]) ∧
    ((finalMain envWithToken true (some [⟨"Other Release", "v0.0.1", 7⟩])
        (fun _ => true)).warnedKeepMissing = true ∧
     (finalMain envWithToken true (some [⟨"Other Release", "v0.0.1", 7⟩])
        (fun _ => true)).attempted = [⟨"Other Release", "v0.0.1", 7⟩]) ∧
    ((cliMain [⟨"Other Release", "v0.0.1"⟩] "y" "y" (fun _ => true)).warnedKeepMissing = true ∧
     (pyLower "y" ≠ "y" →
       (cliMain [⟨"Other Release", "v0.0.1"⟩] "y" "y" (fun _ => true)).exitCode = 1 ∧
       (cliMain [⟨"Other Release", "v0.0.1"⟩] "y" "y" (fun _ => true)).attempted = []) ∧
     (pyLower "y" = "y" → pyLower "y" = "y" →
       (cliMain [⟨"Other Release", "v0.0.1"⟩] "y" "y" (fun _ => true)).attempted =
         [⟨"Other Release", "v0.0.1"⟩])) := by
  exact missing_keep_warn_policy
    [⟨"Other Release", "v0.0.1", 7⟩] [⟨"Other Release", "v0.0.1"⟩]
    envWithToken (fun _ => none) (fun _ => true) (fun _ => true) "y" "y"
    (by decide) (by decide) (by decide) (by decide) (by decide) (by decide)

/-- C4: reconciliation is idempotent. When the record set is non-empty and
already reduced to records that all match the keep-name or keep-tag, the CLI
variant exits 0 reporting nothing to delete, with an empty candidate set and
zero deletion calls, and the final variant likewise returns 0 reporting the
cleanup already complete, with an empty candidate set and zero deletion calls;
hence a second run after a successful first run is a no-op. -/
theorem reconcile_idempotent
    (releasesC : List ReleaseCLI) (contResp confirmResp : String)
    (okC : ReleaseCLI → Bool)
    (env : String → Option String) (releasesF : List ReleaseAPI)
    (okF : ReleaseAPI → Bool)
    (hneC : releasesC ≠ [])
    (hallC : ∀ r ∈ releasesC, keepMatchCLI r KEEP_RELEASE KEEP_TAG = true)
    (hneF : releasesF ≠ [])
    (hallF : ∀ r ∈ releasesF, keepMatchAPI r KEEP_RELEASE KEEP_TAG = true)
    (htokF : (finalTokenResolve env).isSome = true) :
    cliMain releasesC contResp confirmResp okC =
      ⟨true, false, some "No releases to delete.", 0, [], 0, 0⟩ ∧
    finalMain env true (some releasesF) okF =
      ⟨true, false, some "No releases to delete - cleanup already complete!",
        0, [], 0, 0⟩ := by
  obtain ⟨tf, htf⟩ := Option.isSome_iff_exists.mp htokF
  have hC : releasesC.isEmpty = false := by
    cases releasesC with
    | nil => exact absurd rfl hneC
    | cons r rest => rfl
  have hpC := cliPartition_all_match releasesC hneC hallC
  have hpF := apiPartition_all_match releasesF hneF hallF
  constructor
  · simp [cliMain, hC, hpC]
  · simp [finalMain, htf, hpF]

/-- C4 witness: a record set holding exactly the keep record. -/
theorem reconcile_idempotent_witness :
    cliMain [⟨KEEP_RELEASE, KEEP_TAG⟩] "n" "n" (fun _ => false) =
      ⟨true, false, some "No releases to delete.", 0, [], 0, 0⟩ ∧
    finalMain envWithToken true (some [⟨KEEP_RELEASE, KEEP_TAG, 5⟩]) (fun _ => false) =
      ⟨true, false, some "No releases to delete - cleanup already complete!",
        0, [], 0, 0⟩ := by
  exact reconcile_idempotent [⟨KEEP_RELEASE, KEEP_TAG⟩] "n" "n" (fun _ => false)
    envWithToken [⟨KEEP_RELEASE, KEEP_TAG, 5⟩] (fun _ => false)
    (by decide) (by decide) (by decide) (by decide) (by decide)

/-- C5: credential resolution in the API variant checks the fixed ordered list
of environment variables first, then falls back to the fixed list of
well-known file paths, returning the first non-empty value found (the interior
GITHUB_ACTIONS re-check is redundant because GITHUB_TOKEN heads the ordered
list); and when no candidate yields a value, the run aborts with exit status 1
before any remote call is made (no listing fetch, no deletion attempt). -/
theorem credential_resolution_env_then_files
    (env fileContents : String → Option String)
    (releases : List ReleaseAPI) (ok : ReleaseAPI → Bool)
    (authOk : Bool) (fetchResult : Option (List ReleaseAPI)) :
    get_github_token env fileContents = specCredentialResolution env fileContents ∧
    (get_github_token env fileContents = none →
      (apiMain env fileContents releases ok).fetched = false ∧
      (apiMain env fileContents releases ok).exitCode = 1 ∧
      (apiMain env fileContents releases ok).attempted = []) ∧
    (finalTokenResolve env = none →
      (finalMain env authOk fetchResult ok).fetched = false ∧
      (finalMain env authOk fetchResult ok).exitCode = 1 ∧
      (finalMain env authOk fetchResult ok).attempted = []) := by
  have hmain : get_github_token env fileContents =
      specCredentialResolution env fileContents := by
    unfold get_github_token specCredentialResolution
    cases henv : firstEnvToken env token_names with
    | some t => rfl
    | none =>
      have hgt : env "GITHUB_TOKEN" = none ∨ env "GITHUB_TOKEN" = some "" := by
        have h0 : firstEnvToken env token_names =
            (match env "GITHUB_TOKEN" with
             | some t => if t = "" then
                 firstEnvToken env (token_names.tail) else some t
             | none => firstEnvToken env (token_names.tail)) := rfl
        rw [h0] at henv
        cases hg : env "GITHUB_TOKEN" with
        | none => exact Or.inl rfl
        | some t =>
          rw [hg] at henv
          by_cases ht : t = ""
          · exact Or.inr (by rw [ht])
          · simp [ht] at henv
      rcases hgt with hg | hg <;>
        cases ha : env "GITHUB_ACTIONS" with
        | none => simp [hg, ha]
        | some a =>
          by_cases haa : a = "" <;> simp [hg, ha, haa]
  refine ⟨hmain, fun hnone => ?_, fun hnoneF => ?_⟩
  · simp [apiMain, hnone]
  · simp [finalMain, hnoneF]

/-- C5 witness: with nothing set anywhere, resolution yields no value and the
run aborts with exit status 1 before fetching. -/
theorem credential_resolution_env_then_files_witness :
    get_github_token envEmpty (fun _ => none) =
      specCredentialResolution envEmpty (fun _ => none) ∧
    ((apiMain envEmpty (fun _ => none) [] (fun _ => true)).fetched = false ∧
     (apiMain envEmpty (fun _ => none) [] (fun _ => true)).exitCode = 1 ∧
     (apiMain envEmpty (fun _ => none) [] (fun _ => true)).attempted = []) ∧
    ((finalMain envEmpty true none (fun _ => true)).fetched = false ∧
     (finalMain envEmpty true none (fun _ => true)).exitCode = 1 ∧
     (finalMain envEmpty true none (fun _ => true)).attempted = []) := by
  have h := credential_resolution_env_then_files envEmpty (fun _ => none)
    [] (fun _ => true) true none
  exact ⟨h.1, h.2.1 (by decide), h.2.2 (by decide)⟩

/-- C10 counterexample: the final variant (cleanup_releases_final.py) has no
empty-list guard: with a token present, a passing auth check and a
successfully fetched and parsed EMPTY release list, the run ends with exit
status 0 and reports the cleanup already complete, contrary to the claim that
every variant aborts with a non-zero exit on an empty fetched list. -/
theorem final_empty_list_is_success :
    (finalMain envWithToken true (some []) (fun _ => true)).exitCode = 0 ∧
    (finalMain envWithToken true (some []) (fun _ => true)).abortMessage =
      some "No releases to delete - cleanup already complete!" ∧
    (finalMain envWithToken true (some []) (fun _ => true)).attempted = [] := by
  decide

/-- C10 (amended): on an empty fetched release list, the CLI and API variants
abort with exit status 1 reporting exactly
"No releases found or error getting releases.", the direct variant aborts with
exit status 1 under a different diagnostic headline, and the final variant
treats the empty parsed list as a successful run with exit status 0, an empty
candidate set and zero deletion calls. -/
theorem empty_release_list_behaviour :
    ((cliMain [] "y" "y" (fun _ => true)).exitCode = 1 ∧
     (cliMain [] "y" "y" (fun _ => true)).abortMessage =
       some "No releases found or error getting releases.") ∧
    ((apiMain envWithToken (fun _ => none) [] (fun _ => true)).exitCode = 1 ∧
     (apiMain envWithToken (fun _ => none) [] (fun _ => true)).abortMessage =
       some "No releases found or error getting releases.") ∧
    ((directMain [] (fun _ => true)).exitCode = 1 ∧
     (directMain [] (fun _ => true)).abortMessage =
       some "Failed to get releases - this could be due to:") ∧
    ((finalMain envWithToken true (some []) (fun _ => true)).exitCode = 0 ∧
     (finalMain envWithToken true (some []) (fun _ => true)).successCount = 0 ∧
     (finalMain envWithToken true (some []) (fun _ => true)).failedCount = 0) := by
  decide

/-- Under the name-and-tag correspondence, the CLI and API keep predicates
agree. -/
theorem keepMatch_rel {r : ReleaseCLI} {s : ReleaseAPI} (h : ReleaseRel r s)
    (keepName keepTag : String) :
    keepMatchCLI r keepName keepTag = keepMatchAPI s keepName keepTag := by
  obtain ⟨h1, h2⟩ := h
  simp [keepMatchCLI, keepMatchAPI, h1, h2]

/-- Under pointwise correspondence of the inputs, the found flags computed by
the CLI and API partitions agree. -/
theorem partition_any_rel {rsC : List ReleaseCLI} {rsA : List ReleaseAPI}
    (hrel : List.Forall₂ ReleaseRel rsC rsA) (keepName keepTag : String) :
    (rsC.any fun r => keepMatchCLI r keepName keepTag) =
      (rsA.any fun r => keepMatchAPI r keepName keepTag) := by
  induction hrel with
  | nil => rfl
  | cons h _ ih => simp [keepMatch_rel h keepName keepTag, ih]

/-- Under pointwise correspondence of the inputs, the delete-candidate lists
computed by the CLI and API partitions correspond pointwise (same length, same
order, same name and tag data). -/
theorem partition_filter_rel {rsC : List ReleaseCLI} {rsA : List ReleaseAPI}
    (hrel : List.Forall₂ ReleaseRel rsC rsA) (keepName keepTag : String) :
    List.Forall₂ ReleaseRel
      (rsC.filter fun r => !(keepMatchCLI r keepName keepTag))
      (rsA.filter fun r => !(keepMatchAPI r keepName keepTag)) := by
  induction hrel with
  | nil => exact List.Forall₂.nil
  | cons h htl ih =>
    rename_i r s _ _
    by_cases hk : keepMatchCLI r keepName keepTag = true
    · have hk2 : keepMatchAPI s keepName keepTag = true :=
        (keepMatch_rel h keepName keepTag) ▸ hk
      simpa [List.filter, hk, hk2] using ih
    · have hk2 : keepMatchAPI s keepName keepTag = false := by
        rw [← keepMatch_rel h keepName keepTag]
        exact Bool.eq_false_iff.mpr hk
      simp only [Bool.not_eq_true] at hk
      simpa [List.filter, hk, hk2] using List.Forall₂.cons h ih

/-- C8: the CLI-subprocess reconciler and the HTTP reconcilers are
behaviourally identical on the shared logic. Given pointwise-corresponding
input record lists (same names and tags, any ids) and the same keep-name and
keep-tag, the CLI partition and the API partition compute the same keep-found
flag and pointwise-corresponding delete-candidate lists in the same order; and
the direct-HTTP variant partition is literally the API partition. -/
theorem cli_api_partitions_equivalent
    (rsC : List ReleaseCLI) (rsA : List ReleaseAPI) (keepName keepTag : String)
    (hrel : List.Forall₂ ReleaseRel rsC rsA) :
    (cliPartition rsC keepName keepTag).2 = (apiPartition rsA keepName keepTag).2 ∧
    List.Forall₂ ReleaseRel (cliPartition rsC keepName keepTag).1
      (apiPartition rsA keepName keepTag).1 ∧
    directPartition rsA keepName keepTag = apiPartition rsA keepName keepTag := by
  refine ⟨?_, ?_, rfl⟩
  · rw [cliPartition_eq, apiPartition_eq]
    exact partition_any_rel hrel keepName keepTag
  · rw [cliPartition_eq, apiPartition_eq]
    exact partition_filter_rel hrel keepName keepTag

/-- C8 witness: a concrete two-record list seen through both transports. -/
theorem cli_api_partitions_equivalent_witness :
    (cliPartition [⟨"X", "t1"⟩, ⟨KEEP_RELEASE, KEEP_TAG⟩] KEEP_RELEASE KEEP_TAG).2 =
      (apiPartition [⟨"X", "t1", 3⟩, ⟨KEEP_RELEASE, KEEP_TAG, 4⟩]
        KEEP_RELEASE KEEP_TAG).2 ∧
    List.Forall₂ ReleaseRel
      (cliPartition [⟨"X", "t1"⟩, ⟨KEEP_RELEASE, KEEP_TAG⟩] KEEP_RELEASE KEEP_TAG).1
      (apiPartition [⟨"X", "t1", 3⟩, ⟨KEEP_RELEASE, KEEP_TAG, 4⟩]
        KEEP_RELEASE KEEP_TAG).1 ∧
    directPartition [⟨"X", "t1", 3⟩, ⟨KEEP_RELEASE, KEEP_TAG, 4⟩]
        KEEP_RELEASE KEEP_TAG =
      apiPartition [⟨"X", "t1", 3⟩, ⟨KEEP_RELEASE, KEEP_TAG, 4⟩]
        KEEP_RELEASE KEEP_TAG := by
  exact cli_api_partitions_equivalent
    [⟨"X", "t1"⟩, ⟨KEEP_RELEASE, KEEP_TAG⟩]
    [⟨"X", "t1", 3⟩, ⟨KEEP_RELEASE, KEEP_TAG, 4⟩]
    KEEP_RELEASE KEEP_TAG
    (List.Forall₂.cons ⟨rfl, rfl⟩ (List.Forall₂.cons ⟨rfl, rfl⟩ List.Forall₂.nil))

/-- C6: glyph rendering dispatch. For every word, the vector-recipe renderer
of generate_images.py takes the recipe path exactly when the word is a key of
its design table and the textual fallback path exactly when it is not, and
likewise for the recipe renderer of generate_anki_deck.py with its own table;
the absent case returns the fallback result of the same total function, never
an error. -/
theorem glyph_lookup_fallback_dichotomy :
    ∀ w : String,
      (generate_proper_geometric_sitelen_pona w = RenderPath.recipe ↔
        sitelen_designs_words.contains w = true) ∧
      (generate_proper_geometric_sitelen_pona w = RenderPath.fallbackText ↔
        sitelen_designs_words.contains w = false) ∧
      (generate_geometric_sitelen_pona w = RenderPath.recipe ↔
        geometric_shapes_words.contains w = true) ∧
      (generate_geometric_sitelen_pona w = RenderPath.fallbackText ↔
        geometric_shapes_words.contains w = false) := by
  intro w
  unfold generate_proper_geometric_sitelen_pona generate_geometric_sitelen_pona
  by_cases h1 : sitelen_designs_words.contains w <;>
    by_cases h2 : geometric_shapes_words.contains w <;>
      simp [h1, h2]

/-- C7: the deck builder produces exactly one note per word entry and the
model carries exactly two card templates, so the flashcard record count is
always len(word_entries) * templates_per_word = 2 * len(word_entries),
whatever the word-to-image mapping. -/
theorem deck_card_count :
    ∀ (wordsData : List (String × WordInfo))
      (wordToImage : String → Option String),
      (createAnkiDeckNotes wordsData wordToImage).length = wordsData.length ∧
      tokiPonaModelTemplates.length = 2 ∧
      deckCardCount wordsData wordToImage = wordsData.length * 2 := by
  intro wordsData wordToImage
  refine ⟨?_, rfl, ?_⟩
  · simp [createAnkiDeckNotes]
  · simp [deckCardCount, createAnkiDeckNotes, tokiPonaModelTemplates]

/-- C9: the compiled codepoint table does NOT consist of single codepoints in
U+F1900..U+F19FF. Only the entry for the word a is the single supplementary
private-use character U+F1900; the entry for the word mi (one of the test
words of test_unicode_sitelen.py itself) is the TWO-character string
[U+F193, the digit 4], whose leading character lies outside
U+F1900..U+F19FF, so `ord` applied to it in the accompanying test raises a
TypeError. -/
theorem sitelen_unicode_two_char_values :
    sitelenLookup "a" = some (String.mk [Char.ofNat 0xF1900]) ∧
    (String.mk [Char.ofNat 0xF1900]).length = 1 ∧
    (0xF1900 ≤ (Char.ofNat 0xF1900).toNat ∧ (Char.ofNat 0xF1900).toNat ≤ 0xF19FF) ∧
    sitelenLookup "mi" = some (String.mk [Char.ofNat 0xF193, Char.ofNat 0x34]) ∧
    (String.mk [Char.ofNat 0xF193, Char.ofNat 0x34]).length = 2 ∧
    ¬(0xF1900 ≤ (Char.ofNat 0xF193).toNat ∧ (Char.ofNat 0xF193).toNat ≤ 0xF19FF) := by
  decide
